import Mathlib

/-!
Shallow embedding of `automation_tools/satellite6/upgrade/__init__.py`
(elyezer/automation-tools).

The repository is a fabric-based upgrade orchestrator with three entry
points: `satellite6_upgrade`, `satellite6_capsule_upgrade` and
`product_upgrade`.  Remote interactions (fabric `run`/`put`/`execute`,
repository enable/disable helpers, RHEV instance management, ...) are
modelled as an `Event` trace; each straight-line remote step of a
workflow becomes a `Step` (an event plus its fabric `warn_only` flag),
and the fabric abort discipline (a failing non-`warn_only` command
aborts the task, a failing `warn_only` command is recorded and execution
continues) is the `runSteps` sequencer, driven by a fault oracle that
says which step positions fail.

Environment variables (`os.environ`) are an `Env` record of optional
strings; the fabric shared `env` dictionary keys `satellite_host` /
`capsule_host` are a `FabricEnv` record.  Python truthiness of
`os.environ.get(...)` values (`None` and `''` are falsy) is `envTruthy`;
`x is None` checks are `Option.isNone`/`isSome`; `'{0}'.format(x)` on a
possibly-`None` value is `optStr` (Python renders `None` as `"None"`).
The remote `distro_info()[1]` answer is passed in as the `major`
parameter, and its query is recorded as a `distroInfo` event.
-/

/-- One remote side effect issued by the orchestrator, translated from the
fabric / helper calls of the source. `run` is a fabric `run` on the task's
current host; `runOn h c` is `execute(lambda: run(c), host=h)`. -/
inductive Event where
  | run (cmd : String)
  | runOn (host : Option String) (cmd : String)
  | put (contents : String) (remotePath : String)
  | enableRepos (name : String)
  | disableRepos (name : String) (silent : Bool)
  | setYumDebugLevel
  | updatePackages (quiet : Bool)
  | reboot (waitSecs : Nat)
  | distroInfo
  | generateCapsuleCerts (capHost : Option String) (regenerate : Bool) (onHost : Option String)
  | deleteRhevmInstance (name : String)
  | createRhevmInstance (name : String) (image : Option String)
  | hostPings (host : Option String)
  | subscribe (host : Option String)
  | copySshKey (fromHost : Option String) (toHost : Option String)
  | syncCapsuleToolsRepos (onHost : Option String)
  | foremanDebug (label : String) (host : Option String)
deriving DecidableEq, Repr

/-- A workflow phase: one remote operation together with its fabric
`warn_only` flag (`tolerant = true` means `warn_only=True` in the source). -/
structure Step where
  act : Event
  tolerant : Bool
deriving DecidableEq, Repr

instance : Inhabited Step := ⟨⟨Event.distroInfo, false⟩⟩

/-- How a task invocation ends: normal return, `sys.exit(code)`, a fabric
abort caused by a failing non-`warn_only` command, or a Python
`NameError`/`UnboundLocalError` on an unassigned local variable. -/
inductive Outcome where
  | completed
  | exited (code : Nat)
  | aborted
  | nameError (var : String)
deriving DecidableEq, Repr

/-- The `os.environ` keys read by the module (all optional strings). -/
structure Env where
  TO_VERSION : Option String := none
  FROM_VERSION : Option String := none
  BASE_URL : Option String := none
  CAPSULE_URL : Option String := none
  ADMIN_PASSWORD : Option String := none
  SATELLITE_HOSTNAME : Option String := none
  CAPSULE_HOSTNAME : Option String := none
  OS : Option String := none
  RHEV_SATELLITE : Option String := none
  RHEV_CAPSULE : Option String := none
deriving DecidableEq, Repr

/-- The fabric shared `env` dictionary keys set by `product_upgrade` and
read by `satellite6_capsule_upgrade` (`env.get` yields `None` when unset). -/
structure FabricEnv where
  satellite_host : Option String := none
  capsule_host : Option String := none
deriving DecidableEq, Repr

/-- Python truthiness of an optional environment string: `None` and the
empty string are falsy (`if not os.environ.get(...)`). -/
def envTruthy : Option String → Bool
  | none => false
  | some s => !(s == "")

/-- Python `'...{0}...'.format(x)` on a possibly-`None` value: `None`
renders as the string `"None"`. -/
def optStr : Option String → String
  | none => "None"
  | some s => s

/-- Python `x in list` for an optional string drawn from `os.environ.get`
(`None in [...]` is `False` for string lists). -/
def pyIn (v : Option String) (l : List String) : Bool :=
  match v with
  | none => false
  | some s => l.contains s

/-- The fabric sequencing discipline over a list of phases, driven by a
fault oracle on phase positions: a failing phase whose `warn_only` flag is
unset aborts the task (its command was issued, the remaining phases are
not), a failing `warn_only` phase is recorded and execution continues.
Returns the issued events and whether the task finished without an abort. -/
def runSteps (o : Nat → Bool) : Nat → List Step → List Event × Bool
  | _, [] => ([], true)
  | i, s :: rest =>
    if o i && !s.tolerant then ([s.act], false)
    else
      let r := runSteps o (i + 1) rest
      (s.act :: r.1, r.2)

/-- The hub workflow: the straight-line remote steps of
`satellite6_upgrade` (source lines 55-112), in order, after the
`TO_VERSION` validation.  `major` is the `distro_info()[1]` answer and
`pw` the resolved admin password. -/
def satellitePhases (e : Env) (major pw : String) : List Step :=
  [⟨Event.setYumDebugLevel, false⟩,
   ⟨Event.run "rm -rf /etc/yum.repos.d/rhel-\x7boptional,released\x7d.repo", false⟩,
   ⟨Event.updatePackages true, false⟩]
  ++ (if envTruthy e.RHEV_SATELLITE then [⟨Event.reboot 120, false⟩] else [])
  ++ [⟨Event.distroInfo, false⟩,
      ⟨Event.disableRepos "*" true, false⟩,
      ⟨Event.enableRepos ("rhel-" ++ major ++ "-server-rpms"), false⟩,
      ⟨Event.enableRepos ("rhel-server-rhscl-" ++ major ++ "-rpms"), false⟩]
  ++ (match e.BASE_URL with
      | none =>
        [⟨Event.enableRepos
            ("rhel-" ++ major ++ "-server-satellite-" ++ optStr e.TO_VERSION ++ "-rpms"),
          false⟩]
      | some url =>
        [⟨Event.put
            ("[sat6]\nname=satellite 6\nbaseurl=" ++ url ++ "\nenabled=1\ngpgcheck=0\n")
            "/etc/yum.repos.d/sat6.repo",
          false⟩])
  ++ [⟨Event.run "katello-service stop", false⟩]
  ++ (if e.TO_VERSION = some "6.1" then [⟨Event.run "service-wait mongod start", false⟩] else [])
  ++ [⟨Event.run "yum clean all", true⟩,
      ⟨Event.updatePackages false, false⟩]
  ++ (if envTruthy e.RHEV_SATELLITE then [⟨Event.reboot 120, false⟩] else [])
  ++ [⟨Event.run "katello-service stop", false⟩]
  ++ (if e.TO_VERSION = some "6.1" then [⟨Event.run "service-wait mongod start", false⟩] else [])
  ++ [(if e.TO_VERSION = some "6.1"
        then ⟨Event.run "katello-installer --upgrade", false⟩
        else ⟨Event.run "satellite-installer --scenario satellite --upgrade", false⟩),
      ⟨Event.run ("hammer -u admin -p " ++ pw ++ " ping"), true⟩,
      ⟨Event.run "katello-service status", true⟩]

/-- The subordinate (capsule) workflow: the straight-line remote steps of
`satellite6_capsule_upgrade` (source lines 150-196), in order, after the
`FROM_VERSION` / `TO_VERSION` validations.  The hub and subordinate
addresses are read from the fabric `env` keys (`fe`). -/
def capsulePhases (e : Env) (fe : FabricEnv) (major : String) : List Step :=
  [⟨Event.distroInfo, false⟩]
  ++ (if e.CAPSULE_URL.isNone then
        [⟨Event.enableRepos
            ("rhel-" ++ major ++ "-server-satellite-capsule-" ++ optStr e.TO_VERSION ++ "-rpms"),
          false⟩]
      else [])
  ++ [⟨Event.disableRepos
         ("rhel-" ++ major ++ "-server-satellite-capsule-" ++ optStr e.FROM_VERSION ++ "-rpms")
         false,
       false⟩,
      ⟨Event.run "for i in qpidd pulp_workers pulp_celerybeat pulp_resource_manager httpd; do service $i stop; done",
       false⟩,
      ⟨Event.run "yum clean all", true⟩,
      ⟨Event.updatePackages false, false⟩]
  ++ (if e.FROM_VERSION = some "6.0" then
        [⟨Event.run "yum install -y capsule-installer", true⟩,
         ⟨Event.run "cp /etc/katello-installer/answers.capsule-installer.yaml.rpmsave /etc/capsule-installer/answers.capsule-installer.yaml",
          true⟩]
      else [])
  ++ [⟨Event.generateCapsuleCerts fe.capsule_host true fe.satellite_host, false⟩,
      ⟨Event.runOn fe.satellite_host
         ("scp -o \x27StrictHostKeyChecking no\x27 " ++ optStr fe.capsule_host
           ++ "-certs.tar root@" ++ optStr fe.capsule_host ++ ":/home/"),
       false⟩]
  ++ (if envTruthy e.RHEV_CAPSULE then [⟨Event.reboot 120, false⟩] else [])
  ++ [⟨Event.run "for i in qpidd pulp_workers pulp_celerybeat pulp_resource_manager httpd; do service $i stop; done",
       false⟩,
      (if e.TO_VERSION = some "6.1"
        then ⟨Event.run ("capsule-installer --upgrade --certs-tar /home/"
                ++ optStr fe.capsule_host ++ "-certs.tar"), false⟩
        else ⟨Event.run ("satellite-installer --scenario capsule --upgrade --certs-tar /home/"
                ++ optStr fe.capsule_host ++ "-certs.tar"), false⟩),
      ⟨Event.run "katello-service status", true⟩]

/-- `satellite6_upgrade` (source lines 29-112): validate `TO_VERSION`
against `['6.1', '6.2']` (exit 1 otherwise, before any remote side
effect), resolve the admin password, then run the hub workflow under the
fabric abort discipline. -/
def satellite6_upgrade (admin_password : Option String) (e : Env) (major : String)
    (o : Nat → Bool) : List Event × Outcome :=
  if !(pyIn e.TO_VERSION ["6.1", "6.2"]) then ([], Outcome.exited 1)
  else
    let pw := match admin_password with
      | none => e.ADMIN_PASSWORD.getD "changeme"
      | some p => p
    let r := runSteps o 0 (satellitePhases e major pw)
    (r.1, if r.2 then Outcome.completed else Outcome.aborted)

/-- `satellite6_capsule_upgrade` (source lines 115-196): read the hub and
subordinate addresses from the fabric `env` keys, validate `FROM_VERSION`
against `['6.1', '6.0']` and `TO_VERSION` against `['6.1', '6.2']`
(exit 1 otherwise, before any remote side effect), then run the
subordinate workflow under the fabric abort discipline. -/
def satellite6_capsule_upgrade (admin_password : Option String) (e : Env) (fe : FabricEnv)
    (major : String) (o : Nat → Bool) : List Event × Outcome :=
  if !(pyIn e.FROM_VERSION ["6.1", "6.0"]) then ([], Outcome.exited 1)
  else if !(pyIn e.TO_VERSION ["6.1", "6.2"]) then ([], Outcome.exited 1)
  else
    let _pw := match admin_password with
      | none => e.ADMIN_PASSWORD.getD "changeme"
      | some p => p
    let r := runSteps o 0 (capsulePhases e fe major)
    (r.1, if r.2 then Outcome.completed else Outcome.aborted)

/-- Tail of `product_upgrade` (source lines 315-324): run the hub workflow
on the hub host, collect hub diagnostics, and for `product == 'capsule'`
run the subordinate workflow and collect subordinate diagnostics.  A
`sys.exit` or abort inside a sub-task terminates the whole run. -/
def upgradeAndDebug (product : String) (e : Env) (major : String) (o1 o2 : Nat → Bool)
    (sat_host cap_host : Option String) (fe : FabricEnv) (evs : List Event) :
    List Event × Outcome :=
  let r := satellite6_upgrade none e major o1
  if r.2 ≠ Outcome.completed then (evs ++ r.1, r.2)
  else
    let evs := evs ++ r.1 ++ [Event.foremanDebug "satellite" sat_host]
    if product = "capsule" then
      let r2 := satellite6_capsule_upgrade none e fe major o2
      if r2.2 ≠ Outcome.completed then (evs ++ r2.1, r2.2)
      else (evs ++ r2.1 ++ [Event.foremanDebug "capsule" cap_host], Outcome.completed)
    else (evs, Outcome.completed)

/-- Capsule host resolution of `product_upgrade` (source lines 292-314):
for `product == 'capsule'`, either use the explicit `CAPSULE_HOSTNAME`
(and publish it in the fabric `env`), or recreate a RHEV capsule instance
named after the `version` local variable — which Python leaves unassigned
when the hub branch used an explicit hostname, so that path raises an
undefined-name error.  Then copy the hub's ssh key to the subordinate and,
when `CAPSULE_URL` is set, sync the capsule repositories on the hub. -/
def capsuleSection (product : String) (cap_image : Option String) (e : Env) (major : String)
    (o1 o2 : Nat → Bool) (version : Option String) (sat_host : Option String)
    (fe : FabricEnv) (evs : List Event) : List Event × Outcome :=
  if product = "capsule" then
    if envTruthy e.CAPSULE_HOSTNAME then
      let cap_host := e.CAPSULE_HOSTNAME
      let fe := { fe with capsule_host := e.CAPSULE_HOSTNAME }
      let evs := evs ++ [Event.copySshKey sat_host cap_host]
        ++ (if e.CAPSULE_URL.isSome then [Event.syncCapsuleToolsRepos sat_host] else [])
      upgradeAndDebug product e major o1 o2 sat_host cap_host fe evs
    else
      if !envTruthy cap_image && !envTruthy e.RHEV_CAPSULE then (evs, Outcome.exited 1)
      else
        match version with
        | none => (evs, Outcome.nameError "version")
        | some v =>
          let cap_instance := "upgrade_capsule_auto_" ++ v
          let cap_host := e.RHEV_CAPSULE
          let evs := evs ++ [Event.deleteRhevmInstance cap_instance,
                             Event.createRhevmInstance cap_instance cap_image,
                             Event.copySshKey sat_host cap_host]
            ++ (if e.CAPSULE_URL.isSome then [Event.syncCapsuleToolsRepos sat_host] else [])
          upgradeAndDebug product e major o1 o2 sat_host cap_host fe evs
  else upgradeAndDebug product e major o1 o2 sat_host none fe evs

/-- `product_upgrade` (source lines 199-324): validate the product name,
resolve the hub host (explicit `SATELLITE_HOSTNAME`, publishing it in the
fabric `env`; otherwise recreate a RHEV instance — requiring an image or
`RHEV_SATELLITE`, and a truthy `OS` selector — then wait for reachability
and subscribe), restart the hub services, then hand over to the capsule
section and the workflow runs.  The Python local `version` is threaded as
an `Option String` that is `none` exactly when unassigned. -/
def product_upgrade (product : String) (sat_image cap_image : Option String) (e : Env)
    (major : String) (o1 o2 : Nat → Bool) : List Event × Outcome :=
  if !(["satellite", "capsule"].contains product) then ([], Outcome.exited 1)
  else
    if !envTruthy e.SATELLITE_HOSTNAME then
      if !envTruthy sat_image && !envTruthy e.RHEV_SATELLITE then ([], Outcome.exited 1)
      else if !envTruthy e.OS then ([], Outcome.exited 1)
      else
        let sat_instance := "upgrade_satellite_auto_" ++ optStr e.OS
        let sat_host := e.RHEV_SATELLITE
        let evs := [Event.deleteRhevmInstance sat_instance,
                    Event.createRhevmInstance sat_instance sat_image,
                    Event.hostPings sat_host,
                    Event.subscribe sat_host,
                    Event.runOn sat_host "katello-service restart"]
        capsuleSection product cap_image e major o1 o2 e.OS sat_host {} evs
    else
      let sat_host := e.SATELLITE_HOSTNAME
      let fe : FabricEnv := { satellite_host := e.SATELLITE_HOSTNAME }
      capsuleSection product cap_image e major o1 o2 none sat_host fe
        [Event.runOn sat_host "katello-service restart"]

/-! ## Sequencer lemmas -/

/-- Unfolding lemma for `runSteps` on a cons cell. -/
theorem runSteps_cons (o : Nat → Bool) (i : Nat) (s : Step) (rest : List Step) :
    runSteps o i (s :: rest) =
      if o i && !s.tolerant then ([s.act], false)
      else (s.act :: (runSteps o (i + 1) rest).1, (runSteps o (i + 1) rest).2) := rfl

/-- If no phase fails mandatorily, every phase executes and the task
finishes without an abort. -/
theorem runSteps_success (l : List Step) (o : Nat → Bool) (i : Nat)
    (h : ∀ j, j < l.length → ¬(o (i + j) = true ∧ (l.getD j default).tolerant = false)) :
    runSteps o i l = (l.map Step.act, true) := by
  induction l generalizing i with
  | nil => rfl
  | cons s rest ih =>
    have h0 : ¬(o i = true ∧ s.tolerant = false) := by simpa using h 0 (by simp)
    have hcond : (o i && !s.tolerant) = false := by
      cases hb : o i <;> cases ht : s.tolerant <;> simp_all
    have hrest : ∀ j, j < rest.length →
        ¬(o ((i + 1) + j) = true ∧ (rest.getD j default).tolerant = false) := by
      intro j hj
      have harith : i + (j + 1) = (i + 1) + j := by omega
      have := h (j + 1) (by simpa using Nat.succ_lt_succ hj)
      simpa [harith] using this
    simp [runSteps, hcond, ih (i + 1) hrest]

/-- With the never-failing oracle, `runSteps` issues every phase's event. -/
theorem runSteps_all_ok (l : List Step) (i : Nat) :
    runSteps (fun _ => false) i l = (l.map Step.act, true) := by
  induction l generalizing i with
  | nil => rfl
  | cons s rest ih => simp [runSteps, ih]

/-- A mandatory (non-`warn_only`) phase that fails aborts the workflow:
its own command is issued, and none of the phases after it run. -/
theorem runSteps_abort (pre : List Step) :
    ∀ (s : Step) (post : List Step) (o : Nat → Bool) (i : Nat),
      (∀ j, j < pre.length → ¬(o (i + j) = true ∧ (pre.getD j default).tolerant = false)) →
      s.tolerant = false → o (i + pre.length) = true →
      runSteps o i (pre ++ s :: post) = (pre.map Step.act ++ [s.act], false) := by
  induction pre with
  | nil =>
    intro s post o i _ hs ho
    simp only [List.length_nil, Nat.add_zero] at ho
    simp [runSteps, ho, hs]
  | cons p pre ih =>
    intro s post o i hpre hs ho
    have h0 : ¬(o i = true ∧ p.tolerant = false) := by simpa using hpre 0 (by simp)
    have hcond : (o i && !p.tolerant) = false := by
      cases hb : o i <;> cases ht : p.tolerant <;> simp_all
    have hrest : ∀ j, j < pre.length →
        ¬(o ((i + 1) + j) = true ∧ (pre.getD j default).tolerant = false) := by
      intro j hj
      have harith : i + (j + 1) = (i + 1) + j := by omega
      have := hpre (j + 1) (by simpa using Nat.succ_lt_succ hj)
      simpa [harith] using this
    have ho' : o ((i + 1) + pre.length) = true := by
      have harith : (i + 1) + pre.length = i + (p :: pre).length := by simp; omega
      rw [harith]; exact ho
    simp [runSteps, hcond, ih s post o (i + 1) hrest hs ho']

/-- A tolerant (`warn_only`) phase that fails does not stop sequencing:
the phase after it still executes. -/
theorem runSteps_tolerant (pre : List Step) :
    ∀ (s s2 : Step) (post : List Step) (o : Nat → Bool) (i : Nat),
      (∀ j, j < pre.length → ¬(o (i + j) = true ∧ (pre.getD j default).tolerant = false)) →
      s.tolerant = true →
      ∃ rest b, runSteps o i (pre ++ s :: s2 :: post) =
        (pre.map Step.act ++ s.act :: s2.act :: rest, b) := by
  induction pre with
  | nil =>
    intro s s2 post o i _ hs
    cases hc : (o (i + 1) && !s2.tolerant) with
    | true => exact ⟨[], false, by simp [runSteps, hs, hc]⟩
    | false =>
      exact ⟨(runSteps o (i + 1 + 1) post).1, (runSteps o (i + 1 + 1) post).2,
        by simp [runSteps, hs, hc]⟩
  | cons p pre ih =>
    intro s s2 post o i hpre hs
    have h0 : ¬(o i = true ∧ p.tolerant = false) := by simpa using hpre 0 (by simp)
    have hcond : (o i && !p.tolerant) = false := by
      cases hb : o i <;> cases ht : p.tolerant <;> simp_all
    have hrest : ∀ j, j < pre.length →
        ¬(o ((i + 1) + j) = true ∧ (pre.getD j default).tolerant = false) := by
      intro j hj
      have harith : i + (j + 1) = (i + 1) + j := by omega
      have := hpre (j + 1) (by simpa using Nat.succ_lt_succ hj)
      simpa [harith] using this
    obtain ⟨rest, b, hr⟩ := ih s s2 post o (i + 1) hrest hs
    exact ⟨rest, b, by simp [runSteps, hcond, hr]⟩

/-- C2: in either workflow (hub or subordinate), a mandatory phase failing
at position k stops the workflow — phases k+1..n never execute and the
task aborts — while a tolerant phase failing at position k lets phase k+1
execute, and tolerant failures alone never make the task fail. -/
theorem spec_c2_failure_policy (e : Env) (fe : FabricEnv) (major pw : String)
    (ws : List Step)
    (_hws : ws = satellitePhases e major pw ∨ ws = capsulePhases e fe major)
    (pre : List Step) (s : Step) (post : List Step) (o : Nat → Bool)
    (hdec : ws = pre ++ s :: post)
    (hpre : ∀ j, j < pre.length → ¬(o j = true ∧ (pre.getD j default).tolerant = false)) :
    (s.tolerant = false → o pre.length = true →
       runSteps o 0 ws = (pre.map Step.act ++ [s.act], false))
    ∧ (s.tolerant = true → ∀ s2 post2, post = s2 :: post2 →
       ∃ rest b, runSteps o 0 ws = (pre.map Step.act ++ s.act :: s2.act :: rest, b))
    ∧ ((∀ j, j < ws.length → ¬(o j = true ∧ (ws.getD j default).tolerant = false)) →
       runSteps o 0 ws = (ws.map Step.act, true)) := by
  subst hdec
  refine ⟨?_, ?_, ?_⟩
  · intro hs ho
    exact runSteps_abort pre s post o 0 (by simpa using hpre) hs (by simpa using ho)
  · intro hs s2 post2 hpost
    subst hpost
    exact runSteps_tolerant pre s s2 post2 o 0 (by simpa using hpre) hs
  · intro hall
    exact runSteps_success _ o 0 (by simpa using hall)

/-- A hub run with `TO_VERSION=6.2` and no other configuration. -/
def envW : Env := { TO_VERSION := some "6.2" }

/-- C2 witness: in the concrete hub workflow for `envW`, a fault injected
at position 3 (the mandatory `distro_info` query) yields exactly the first
four events and an abort. -/
theorem spec_c2_witness :
    runSteps (fun j => j == 3) 0 (satellitePhases envW "7" "changeme") =
      (((satellitePhases envW "7" "changeme").take 3).map Step.act
        ++ [((satellitePhases envW "7" "changeme").getD 3 default).act], false) := by
  exact (spec_c2_failure_policy envW {} "7" "changeme"
      (satellitePhases envW "7" "changeme") (Or.inl rfl)
      ((satellitePhases envW "7" "changeme").take 3)
      ((satellitePhases envW "7" "changeme").getD 3 default)
      ((satellitePhases envW "7" "changeme").drop 4)
      (fun j => j == 3) (by decide) (by decide)).1 (by decide) (by decide)

/-! ## Workflow decomposition helpers -/

/-- Subordinate workflow phases before the source-version-gated block
(source lines 150-163). -/
def capsulePre (e : Env) (major : String) : List Step :=
  [⟨Event.distroInfo, false⟩]
  ++ (if e.CAPSULE_URL.isNone then
        [⟨Event.enableRepos
            ("rhel-" ++ major ++ "-server-satellite-capsule-" ++ optStr e.TO_VERSION ++ "-rpms"),
          false⟩]
      else [])
  ++ [⟨Event.disableRepos
         ("rhel-" ++ major ++ "-server-satellite-capsule-" ++ optStr e.FROM_VERSION ++ "-rpms")
         false,
       false⟩,
      ⟨Event.run "for i in qpidd pulp_workers pulp_celerybeat pulp_resource_manager httpd; do service $i stop; done",
       false⟩,
      ⟨Event.run "yum clean all", true⟩,
      ⟨Event.updatePackages false, false⟩]

/-- The legacy-installer-migration block of the subordinate workflow
(source lines 164-169): tolerantly install `capsule-installer` and copy
its saved answer file. -/
def legacyMigration : List Step :=
  [⟨Event.run "yum install -y capsule-installer", true⟩,
   ⟨Event.run "cp /etc/katello-installer/answers.capsule-installer.yaml.rpmsave /etc/capsule-installer/answers.capsule-installer.yaml",
    true⟩]

/-- Subordinate workflow phases after the source-version-gated block
(source lines 170-196). -/
def capsulePost (e : Env) (fe : FabricEnv) (major : String) : List Step :=
  [⟨Event.generateCapsuleCerts fe.capsule_host true fe.satellite_host, false⟩,
   ⟨Event.runOn fe.satellite_host
      ("scp -o \x27StrictHostKeyChecking no\x27 " ++ optStr fe.capsule_host
        ++ "-certs.tar root@" ++ optStr fe.capsule_host ++ ":/home/"),
    false⟩]
  ++ (if envTruthy e.RHEV_CAPSULE then [⟨Event.reboot 120, false⟩] else [])
  ++ [⟨Event.run "for i in qpidd pulp_workers pulp_celerybeat pulp_resource_manager httpd; do service $i stop; done",
       false⟩,
      (if e.TO_VERSION = some "6.1"
        then ⟨Event.run ("capsule-installer --upgrade --certs-tar /home/"
                ++ optStr fe.capsule_host ++ "-certs.tar"), false⟩
        else ⟨Event.run ("satellite-installer --scenario capsule --upgrade --certs-tar /home/"
                ++ optStr fe.capsule_host ++ "-certs.tar"), false⟩),
      ⟨Event.run "katello-service status", true⟩]

/-- C3: in the subordinate workflow, certificate generation on the hub
(scoped to the subordinate's address, producing `<subordinate>-certs.tar`)
and the transfer of that tarball to `/home/` on the subordinate are
consecutive mandatory phases, and the upgrade installer — which consumes
`/home/<subordinate>-certs.tar` — runs after both. -/
theorem spec_c3_certificate_exchange (e : Env) (fe : FabricEnv) (major : String) :
    ∃ A C, capsulePhases e fe major =
      A ++ [⟨Event.generateCapsuleCerts fe.capsule_host true fe.satellite_host, false⟩,
            ⟨Event.runOn fe.satellite_host
               ("scp -o \x27StrictHostKeyChecking no\x27 " ++ optStr fe.capsule_host
                 ++ "-certs.tar root@" ++ optStr fe.capsule_host ++ ":/home/"),
             false⟩]
        ++ C
        ++ [(if e.TO_VERSION = some "6.1"
              then ⟨Event.run ("capsule-installer --upgrade --certs-tar /home/"
                      ++ optStr fe.capsule_host ++ "-certs.tar"), false⟩
              else ⟨Event.run ("satellite-installer --scenario capsule --upgrade --certs-tar /home/"
                      ++ optStr fe.capsule_host ++ "-certs.tar"), false⟩),
            ⟨Event.run "katello-service status", true⟩] := by
  refine ⟨capsulePre e major
      ++ (if e.FROM_VERSION = some "6.0" then legacyMigration else []),
    (if envTruthy e.RHEV_CAPSULE then [⟨Event.reboot 120, false⟩] else [])
      ++ [⟨Event.run "for i in qpidd pulp_workers pulp_celerybeat pulp_resource_manager httpd; do service $i stop; done",
           false⟩], ?_⟩
  simp [capsulePhases, capsulePre, legacyMigration, List.append_assoc]

/-- C4: in both workflows, the upgrade-installer phase is a two-way branch
keyed only on the `TO_VERSION` string — `6.1` runs the legacy installer
binary (`katello-installer --upgrade` on the hub, `capsule-installer` on
the subordinate), anything else runs the unified `satellite-installer`
with an explicit `--scenario` flag. -/
theorem spec_c4_installer_branch (e : Env) (fe : FabricEnv) (major pw : String) :
    (∃ A, satellitePhases e major pw =
      A ++ [(if e.TO_VERSION = some "6.1"
              then ⟨Event.run "katello-installer --upgrade", false⟩
              else ⟨Event.run "satellite-installer --scenario satellite --upgrade", false⟩),
            ⟨Event.run ("hammer -u admin -p " ++ pw ++ " ping"), true⟩,
            ⟨Event.run "katello-service status", true⟩])
    ∧ (∃ B, capsulePhases e fe major =
      B ++ [(if e.TO_VERSION = some "6.1"
              then ⟨Event.run ("capsule-installer --upgrade --certs-tar /home/"
                      ++ optStr fe.capsule_host ++ "-certs.tar"), false⟩
              else ⟨Event.run ("satellite-installer --scenario capsule --upgrade --certs-tar /home/"
                      ++ optStr fe.capsule_host ++ "-certs.tar"), false⟩),
            ⟨Event.run "katello-service status", true⟩]) := by
  constructor
  · refine ⟨[⟨Event.setYumDebugLevel, false⟩,
       ⟨Event.run "rm -rf /etc/yum.repos.d/rhel-\x7boptional,released\x7d.repo", false⟩,
       ⟨Event.updatePackages true, false⟩]
      ++ (if envTruthy e.RHEV_SATELLITE then [⟨Event.reboot 120, false⟩] else [])
      ++ [⟨Event.distroInfo, false⟩,
          ⟨Event.disableRepos "*" true, false⟩,
          ⟨Event.enableRepos ("rhel-" ++ major ++ "-server-rpms"), false⟩,
          ⟨Event.enableRepos ("rhel-server-rhscl-" ++ major ++ "-rpms"), false⟩]
      ++ (match e.BASE_URL with
          | none =>
            [⟨Event.enableRepos
                ("rhel-" ++ major ++ "-server-satellite-" ++ optStr e.TO_VERSION ++ "-rpms"),
              false⟩]
          | some url =>
            [⟨Event.put
                ("[sat6]\nname=satellite 6\nbaseurl=" ++ url ++ "\nenabled=1\ngpgcheck=0\n")
                "/etc/yum.repos.d/sat6.repo",
              false⟩])
      ++ [⟨Event.run "katello-service stop", false⟩]
      ++ (if e.TO_VERSION = some "6.1" then [⟨Event.run "service-wait mongod start", false⟩] else [])
      ++ [⟨Event.run "yum clean all", true⟩,
          ⟨Event.updatePackages false, false⟩]
      ++ (if envTruthy e.RHEV_SATELLITE then [⟨Event.reboot 120, false⟩] else [])
      ++ [⟨Event.run "katello-service stop", false⟩]
      ++ (if e.TO_VERSION = some "6.1" then [⟨Event.run "service-wait mongod start", false⟩] else []),
      ?_⟩
    simp [satellitePhases, List.append_assoc]
  · refine ⟨capsulePre e major
      ++ (if e.FROM_VERSION = some "6.0" then legacyMigration else [])
      ++ [⟨Event.generateCapsuleCerts fe.capsule_host true fe.satellite_host, false⟩,
          ⟨Event.runOn fe.satellite_host
             ("scp -o \x27StrictHostKeyChecking no\x27 " ++ optStr fe.capsule_host
               ++ "-certs.tar root@" ++ optStr fe.capsule_host ++ ":/home/"),
           false⟩]
      ++ (if envTruthy e.RHEV_CAPSULE then [⟨Event.reboot 120, false⟩] else [])
      ++ [⟨Event.run "for i in qpidd pulp_workers pulp_celerybeat pulp_resource_manager httpd; do service $i stop; done",
           false⟩], ?_⟩
    simp [capsulePhases, capsulePre, legacyMigration, List.append_assoc]

/-! ## Repository configuration -/

/-- Repository enable/disable operations. -/
def isRepoOp : Event → Bool
  | Event.enableRepos _ => true
  | Event.disableRepos _ _ => true
  | _ => false

/-- Repository enable/disable operations plus repository-definition file
deliveries (`put`). -/
def isRepoFileOp : Event → Bool
  | Event.enableRepos _ => true
  | Event.disableRepos _ _ => true
  | Event.put _ _ => true
  | _ => false

/-- A subordinate run from 6.1 to 6.2 with no custom capsule URL. -/
def envCapCdn : Env := { TO_VERSION := some "6.2", FROM_VERSION := some "6.1" }

/-- C5 counterexample: in the subordinate workflow the repository
operations are an enable of the target capsule repository followed by a
disable of the source one — there is no clean-slate `disable_repos('*')`
and no base-OS or common-library enable, and the first repository
operation is an enable, so the claimed disable-all-first policy fails for
the subordinate workflow. -/
theorem spec_c5_counterexample :
    ((capsulePhases envCapCdn {} "7").map Step.act).filter isRepoOp =
      [Event.enableRepos "rhel-7-server-satellite-capsule-6.2-rpms",
       Event.disableRepos "rhel-7-server-satellite-capsule-6.1-rpms" false] := by
  rfl

/-- C5 (amended): the hub workflow's repository configuration first
disables all enabled repositories and only then enables the base OS and
common-library repositories (then the target repository when no custom
URL is given); the subordinate workflow instead performs no clean-slate
disable and enables no base repositories — it only enables the target
capsule repository when `CAPSULE_URL` is unset and then disables the
source-version capsule repository. -/
theorem spec_c5_repo_policy (e : Env) (fe : FabricEnv) (major pw : String) :
    ((satellitePhases e major pw).map Step.act).filter isRepoOp =
      [Event.disableRepos "*" true,
       Event.enableRepos ("rhel-" ++ major ++ "-server-rpms"),
       Event.enableRepos ("rhel-server-rhscl-" ++ major ++ "-rpms")]
      ++ (match e.BASE_URL with
          | none =>
            [Event.enableRepos
              ("rhel-" ++ major ++ "-server-satellite-" ++ optStr e.TO_VERSION ++ "-rpms")]
          | some _ => [])
    ∧ ((capsulePhases e fe major).map Step.act).filter isRepoOp =
      (if e.CAPSULE_URL.isNone then
        [Event.enableRepos
          ("rhel-" ++ major ++ "-server-satellite-capsule-" ++ optStr e.TO_VERSION ++ "-rpms")]
       else [])
      ++ [Event.disableRepos
            ("rhel-" ++ major ++ "-server-satellite-capsule-" ++ optStr e.FROM_VERSION ++ "-rpms")
            false] := by
  constructor
  · cases hB : e.BASE_URL <;>
      cases hR : envTruthy e.RHEV_SATELLITE <;>
      by_cases hT : e.TO_VERSION = some "6.1" <;>
      simp [satellitePhases, hB, hR, hT, isRepoOp]
  · cases hC : e.CAPSULE_URL.isNone <;>
      cases hR : envTruthy e.RHEV_CAPSULE <;>
      by_cases hF : e.FROM_VERSION = some "6.0" <;>
      by_cases hT : e.TO_VERSION = some "6.1" <;>
      simp [capsulePhases, hC, hR, hF, hT, isRepoOp, legacyMigration]

/-- A subordinate run from 6.1 to 6.2 with a custom capsule repository URL. -/
def envCapCustom : Env :=
  { TO_VERSION := some "6.2", FROM_VERSION := some "6.1",
    CAPSULE_URL := some "http://example.com/capsule" }

/-- C6 counterexample: with a custom `CAPSULE_URL` supplied, the
subordinate workflow writes no repository-definition artifact at all (no
`put` occurs — only the source-version disable happens), refuting the
claim that a custom base URL always produces a repository-definition
artifact on the host. -/
theorem spec_c6_counterexample :
    ((capsulePhases envCapCustom {} "7").map Step.act).filter isRepoFileOp =
      [Event.disableRepos "rhel-7-server-satellite-capsule-6.1-rpms" false] := by
  rfl

/-- C6 (amended): on the hub, no custom `BASE_URL` enables the vendor
repository for the target version and writes no artifact, while a custom
`BASE_URL` writes the `sat6.repo` definition (name, baseurl, enabled=1,
gpgcheck=0) to `/etc/yum.repos.d/` and does not enable the vendor
repository; on the subordinate, no custom `CAPSULE_URL` enables the
vendor capsule repository, while a custom `CAPSULE_URL` merely skips that
enable — no artifact is written in either case. -/
theorem spec_c6_custom_url (e : Env) (fe : FabricEnv) (major pw : String) :
    ((satellitePhases e major pw).map Step.act).filter isRepoFileOp =
      [Event.disableRepos "*" true,
       Event.enableRepos ("rhel-" ++ major ++ "-server-rpms"),
       Event.enableRepos ("rhel-server-rhscl-" ++ major ++ "-rpms")]
      ++ (match e.BASE_URL with
          | none =>
            [Event.enableRepos
              ("rhel-" ++ major ++ "-server-satellite-" ++ optStr e.TO_VERSION ++ "-rpms")]
          | some url =>
            [Event.put
              ("[sat6]\nname=satellite 6\nbaseurl=" ++ url ++ "\nenabled=1\ngpgcheck=0\n")
              "/etc/yum.repos.d/sat6.repo"])
    ∧ ((capsulePhases e fe major).map Step.act).filter isRepoFileOp =
      (if e.CAPSULE_URL.isNone then
        [Event.enableRepos
          ("rhel-" ++ major ++ "-server-satellite-capsule-" ++ optStr e.TO_VERSION ++ "-rpms")]
       else [])
      ++ [Event.disableRepos
            ("rhel-" ++ major ++ "-server-satellite-capsule-" ++ optStr e.FROM_VERSION ++ "-rpms")
            false] := by
  constructor
  · cases hB : e.BASE_URL <;>
      cases hR : envTruthy e.RHEV_SATELLITE <;>
      by_cases hT : e.TO_VERSION = some "6.1" <;>
      simp [satellitePhases, hB, hR, hT, isRepoFileOp]
  · cases hC : e.CAPSULE_URL.isNone <;>
      cases hR : envTruthy e.RHEV_CAPSULE <;>
      by_cases hF : e.FROM_VERSION = some "6.0" <;>
      by_cases hT : e.TO_VERSION = some "6.1" <;>
      simp [capsulePhases, hC, hR, hF, hT, isRepoFileOp, legacyMigration]

/-! ## Source-version gating -/

/-- Replace the repository-name argument of any `disableRepos` phase by
the empty string: two phase lists equal up to `stripDisable` agree on
everything except the repository-name data of disable operations. -/
def stripDisable (s : Step) : Step :=
  match s.act with
  | Event.disableRepos _ b => ⟨Event.disableRepos "" b, s.tolerant⟩
  | _ => s

/-- C7: the subordinate workflow contains the tolerant
legacy-installer-migration block exactly when `FROM_VERSION` is `6.0`
(for `6.1` it is absent), and that block is the only phase gated on the
source version: the phases after it do not depend on `FROM_VERSION` at
all, and the phases before it depend on it only through the
repository-name data of the disable operation. -/
theorem spec_c7_legacy_migration (e : Env) (fe : FabricEnv) (major : String) :
    capsulePhases e fe major =
      capsulePre e major
      ++ (if e.FROM_VERSION = some "6.0" then legacyMigration else [])
      ++ capsulePost e fe major
    ∧ legacyMigration =
      [⟨Event.run "yum install -y capsule-installer", true⟩,
       ⟨Event.run "cp /etc/katello-installer/answers.capsule-installer.yaml.rpmsave /etc/capsule-installer/answers.capsule-installer.yaml",
        true⟩]
    ∧ (∀ f, capsulePost { e with FROM_VERSION := f } fe major = capsulePost e fe major)
    ∧ (∀ f, (capsulePre { e with FROM_VERSION := f } major).map stripDisable
          = (capsulePre e major).map stripDisable)
    ∧ (e.FROM_VERSION = some "6.0" →
        Step.mk (Event.run "yum install -y capsule-installer") true ∈ capsulePhases e fe major)
    ∧ (e.FROM_VERSION ≠ some "6.0" →
        Step.mk (Event.run "yum install -y capsule-installer") true ∉ capsulePhases e fe major) := by
  refine ⟨?_, rfl, fun f => rfl, fun f => ?_, ?_, ?_⟩
  · simp [capsulePhases, capsulePre, capsulePost, legacyMigration, List.append_assoc]
  · cases hC : e.CAPSULE_URL <;> simp [capsulePre, stripDisable, hC]
  · intro h
    simp [capsulePhases, h]
  · intro h
    cases hC : e.CAPSULE_URL.isNone <;>
      cases hR : envTruthy e.RHEV_CAPSULE <;>
      by_cases hT : e.TO_VERSION = some "6.1" <;>
      simp [capsulePhases, h, hC, hR, hT]

/-- A subordinate run from the oldest source version 6.0 to 6.1. -/
def envCap60 : Env := { TO_VERSION := some "6.1", FROM_VERSION := some "6.0" }

/-- C7 witness: with `FROM_VERSION=6.0` the tolerant
`yum install -y capsule-installer` migration phase is present in the
concrete subordinate workflow. -/
theorem spec_c7_witness :
    Step.mk (Event.run "yum install -y capsule-installer") true ∈ capsulePhases envCap60 {} "6" :=
  (spec_c7_legacy_migration envCap60 {} "6").2.2.2.2.1 rfl

/-! ## Validation ordering (C1) -/

/-- A `product_upgrade` request over an explicit hub hostname with an
unsupported target version. -/
def envExplicitBadTo : Env :=
  { TO_VERSION := some "7.0", SATELLITE_HOSTNAME := some "sat1.example.com" }

/-- C1 counterexample: a `product_upgrade` run with an unsupported
`TO_VERSION` terminates with exit status 1, but a service-lifecycle
operation (`katello-service restart` on the hub) has already been issued
before that termination — version validation does not precede every
remote side effect for this entry point. -/
theorem spec_c1_counterexample :
    product_upgrade "satellite" none none envExplicitBadTo "7" (fun _ => false) (fun _ => false) =
      ([Event.runOn (some "sat1.example.com") "katello-service restart"], Outcome.exited 1) := by
  rfl

/-- C1 (amended): for the per-host workflow entry points
(`satellite6_upgrade`, `satellite6_capsule_upgrade`), version validation
does come first — an unsupported target version (or, for the
subordinate, source version) terminates the task with exit status 1
before any remote operation is issued.  (For runs entered through
`product_upgrade`, only the product-name and host-specification checks
precede remote side effects; version validation happens when the hub
workflow starts, after provisioning and service-restart operations, as
the counterexample shows.) -/
theorem spec_c1_validation_first (ap : Option String) (e : Env) (fe : FabricEnv)
    (major : String) (o : Nat → Bool) :
    (pyIn e.TO_VERSION ["6.1", "6.2"] = false →
      satellite6_upgrade ap e major o = ([], Outcome.exited 1))
    ∧ (pyIn e.FROM_VERSION ["6.1", "6.0"] = false →
      satellite6_capsule_upgrade ap e fe major o = ([], Outcome.exited 1))
    ∧ (pyIn e.TO_VERSION ["6.1", "6.2"] = false →
      satellite6_capsule_upgrade ap e fe major o = ([], Outcome.exited 1)) := by
  refine ⟨fun h => ?_, fun h => ?_, fun h => ?_⟩
  · simp [satellite6_upgrade, h]
  · simp [satellite6_capsule_upgrade, h]
  · cases hF : pyIn e.FROM_VERSION ["6.1", "6.0"] <;>
      simp [satellite6_capsule_upgrade, h, hF]

/-- C1 witness: an unsupported `TO_VERSION` makes the hub entry point exit
with status 1 having issued no event. -/
theorem spec_c1_witness :
    satellite6_upgrade none envExplicitBadTo "7" (fun _ => false) = ([], Outcome.exited 1) :=
  (spec_c1_validation_first none envExplicitBadTo {} "7" (fun _ => false)).1 rfl

/-! ## Host resolution (C8, C9, C10) -/

/-- C8: when a role has neither an explicit hostname nor an image nor an
external-provisioner hostname, `product_upgrade` exits with status 1
before any provisioning call for that role: for the hub, no event at all
is issued; for the subordinate, the exit happens right after the hub
restart (explicit-hub case) or right after hub provisioning and restart
(provisioned-hub case), with no subordinate instance delete or create. -/
theorem spec_c8_missing_host (product : String) (sat_image cap_image : Option String)
    (e : Env) (major : String) (o1 o2 : Nat → Bool) :
    ((product = "satellite" ∨ product = "capsule") →
      envTruthy e.SATELLITE_HOSTNAME = false →
      envTruthy sat_image = false →
      envTruthy e.RHEV_SATELLITE = false →
      product_upgrade product sat_image cap_image e major o1 o2 = ([], Outcome.exited 1))
    ∧ (envTruthy e.SATELLITE_HOSTNAME = true →
      envTruthy e.CAPSULE_HOSTNAME = false →
      envTruthy cap_image = false →
      envTruthy e.RHEV_CAPSULE = false →
      product_upgrade "capsule" sat_image cap_image e major o1 o2 =
        ([Event.runOn e.SATELLITE_HOSTNAME "katello-service restart"], Outcome.exited 1))
    ∧ (envTruthy e.SATELLITE_HOSTNAME = false →
      (envTruthy sat_image = true ∨ envTruthy e.RHEV_SATELLITE = true) →
      envTruthy e.OS = true →
      envTruthy e.CAPSULE_HOSTNAME = false →
      envTruthy cap_image = false →
      envTruthy e.RHEV_CAPSULE = false →
      product_upgrade "capsule" sat_image cap_image e major o1 o2 =
        ([Event.deleteRhevmInstance ("upgrade_satellite_auto_" ++ optStr e.OS),
          Event.createRhevmInstance ("upgrade_satellite_auto_" ++ optStr e.OS) sat_image,
          Event.hostPings e.RHEV_SATELLITE,
          Event.subscribe e.RHEV_SATELLITE,
          Event.runOn e.RHEV_SATELLITE "katello-service restart"], Outcome.exited 1)) := by
  refine ⟨?_, ?_, ?_⟩
  · rintro (rfl | rfl) h1 h2 h3 <;> simp [product_upgrade, h1, h2, h3]
  · intro h1 h2 h3 h4
    simp [product_upgrade, capsuleSection, h1, h2, h3, h4]
  · intro h1 hor h2 h3 h4 h5
    rcases hor with h | h <;>
      simp [product_upgrade, capsuleSection, h1, h, h2, h3, h4, h5]

/-- C8 witness: `product=capsule` over an explicit hub hostname but with
no subordinate hostname, image or provisioner hostname exits with
status 1 after only the hub service restart. -/
theorem spec_c8_witness :
    product_upgrade "capsule" none none envExplicitBadTo "7" (fun _ => false) (fun _ => false) =
      ([Event.runOn (some "sat1.example.com") "katello-service restart"], Outcome.exited 1) :=
  (spec_c8_missing_host "capsule" none none envExplicitBadTo "7"
    (fun _ => false) (fun _ => false)).2.1 rfl rfl rfl rfl

/-- C9: with an explicit hub hostname (so the hub provisioning branch is
skipped and the Python local `version` is never assigned), no explicit
subordinate hostname, and a subordinate image or provisioner hostname
supplied, `product_upgrade` reaches the subordinate instance-name
construction and fails with an undefined-name error on `version` — not
with the missing-OS-selector exit — regardless of the `OS` variable,
because the OS-distribution check runs only on the hub provisioning
path. -/
theorem spec_c9_unbound_version (sat_image cap_image : Option String) (e : Env)
    (major : String) (o1 o2 : Nat → Bool)
    (hsat : envTruthy e.SATELLITE_HOSTNAME = true)
    (hcap : envTruthy e.CAPSULE_HOSTNAME = false)
    (hprov : envTruthy cap_image = true ∨ envTruthy e.RHEV_CAPSULE = true) :
    product_upgrade "capsule" sat_image cap_image e major o1 o2 =
      ([Event.runOn e.SATELLITE_HOSTNAME "katello-service restart"],
       Outcome.nameError "version") := by
  rcases hprov with h | h <;>
    simp [product_upgrade, capsuleSection, hsat, hcap, h]

/-- An explicit hub hostname with a provisioner-backed subordinate. -/
def envW9 : Env :=
  { SATELLITE_HOSTNAME := some "sat1.example.com",
    RHEV_CAPSULE := some "cap-rhev.example.com" }

/-- C9 witness: concrete run hitting the undefined-name failure. -/
theorem spec_c9_witness :
    product_upgrade "capsule" none none envW9 "7" (fun _ => false) (fun _ => false) =
      ([Event.runOn (some "sat1.example.com") "katello-service restart"],
       Outcome.nameError "version") :=
  spec_c9_unbound_version none none envW9 "7" (fun _ => false) (fun _ => false)
    rfl rfl (Or.inr rfl)

set_option maxHeartbeats 1600000 in
/-- C10: `satellite6_capsule_upgrade` takes the hub and subordinate
addresses from the fabric `env` keys `satellite_host` / `capsule_host`,
and `product_upgrade` sets those keys only on the explicit-hostname
paths.  When the hub was provisioned (no `SATELLITE_HOSTNAME`), the
certificate-generation phase executes against a missing (`None`) hub
host; when the subordinate was provisioned as well, the certificate
commands are built with `None` for the subordinate too — the transfer
command literally reads `None-certs.tar root@None:/home/`. -/
theorem spec_c10_unset_fabric_hosts (sat_image cap_image : Option String) (e : Env)
    (major : String) :
    (e.SATELLITE_HOSTNAME = none →
     envTruthy e.RHEV_SATELLITE = true →
     envTruthy e.OS = true →
     e.TO_VERSION = some "6.2" →
     e.FROM_VERSION = some "6.1" →
     e.CAPSULE_URL = none →
     envTruthy e.CAPSULE_HOSTNAME = true →
     Event.generateCapsuleCerts e.CAPSULE_HOSTNAME true none ∈
       (product_upgrade "capsule" sat_image cap_image e major
         (fun _ => false) (fun _ => false)).1)
    ∧ (∀ osv, e.SATELLITE_HOSTNAME = none →
     envTruthy e.RHEV_SATELLITE = true →
     e.OS = some osv → osv ≠ "" →
     e.TO_VERSION = some "6.2" →
     e.FROM_VERSION = some "6.1" →
     e.CAPSULE_URL = none →
     envTruthy e.CAPSULE_HOSTNAME = false →
     envTruthy e.RHEV_CAPSULE = true →
     Event.generateCapsuleCerts none true none ∈
       (product_upgrade "capsule" sat_image cap_image e major
         (fun _ => false) (fun _ => false)).1
     ∧ Event.runOn none
         "scp -o \x27StrictHostKeyChecking no\x27 None-certs.tar root@None:/home/" ∈
       (product_upgrade "capsule" sat_image cap_image e major
         (fun _ => false) (fun _ => false)).1) := by
  constructor
  · intro h1 h2 h3 hto hfrom hcu hcap
    have hv : pyIn e.TO_VERSION ["6.1", "6.2"] = true := by rw [hto]; rfl
    have hf : pyIn e.FROM_VERSION ["6.1", "6.0"] = true := by rw [hfrom]; rfl
    have hstep :
        (⟨Event.generateCapsuleCerts e.CAPSULE_HOSTNAME true none, false⟩ : Step) ∈
          capsulePhases e { satellite_host := none, capsule_host := e.CAPSULE_HOSTNAME }
            major := by
      simp [capsulePhases, hcu, hfrom, hto]
    have hmem := List.mem_map_of_mem Step.act hstep
    have h1' : envTruthy e.SATELLITE_HOSTNAME = false := by rw [h1]; rfl
    have hprod : (!(["satellite", "capsule"].contains "capsule")) = false := rfl
    simp only [product_upgrade, capsuleSection, upgradeAndDebug, satellite6_upgrade,
      satellite6_capsule_upgrade, hprod, h1', h2, h3, hcap, hcu, hv, hf, runSteps_all_ok,
      Bool.not_true, Bool.not_false, Bool.and_false, Bool.false_and, Bool.true_and,
      Bool.and_true, if_false, if_true, ite_false, ite_true, ne_eq, not_true_eq_false,
      not_false_eq_true, reduceCtorEq, reduceIte, Option.isSome_none, List.mem_append,
      List.mem_cons]
    tauto
  · intro osv h1 h2 hos hosne hto hfrom hcu hcap hrc
    have h3 : envTruthy e.OS = true := by
      rw [hos]; simpa [envTruthy] using hosne
    have hv : pyIn e.TO_VERSION ["6.1", "6.2"] = true := by rw [hto]; rfl
    have hf : pyIn e.FROM_VERSION ["6.1", "6.0"] = true := by rw [hfrom]; rfl
    have hscp : ("scp -o \x27StrictHostKeyChecking no\x27 " ++ optStr none
        ++ "-certs.tar root@" ++ optStr none ++ ":/home/") =
        "scp -o \x27StrictHostKeyChecking no\x27 None-certs.tar root@None:/home/" := rfl
    have hstep1 :
        (⟨Event.generateCapsuleCerts none true none, false⟩ : Step) ∈
          capsulePhases e {} major := by
      simp [capsulePhases, hcu, hfrom, hto]
    have hstep2 :
        (⟨Event.runOn none
            "scp -o \x27StrictHostKeyChecking no\x27 None-certs.tar root@None:/home/",
          false⟩ : Step) ∈ capsulePhases e {} major := by
      simp [capsulePhases, hcu, hfrom, hto, ← hscp]
    have hmem1 := List.mem_map_of_mem Step.act hstep1
    have hmem2 := List.mem_map_of_mem Step.act hstep2
    have h1' : envTruthy e.SATELLITE_HOSTNAME = false := by rw [h1]; rfl
    have hprod : (!(["satellite", "capsule"].contains "capsule")) = false := rfl
    have h3' : envTruthy (some osv) = true := by
      simp [envTruthy, beq_eq_false_iff_ne, hosne]
    constructor <;>
      · simp only [product_upgrade, capsuleSection, upgradeAndDebug, satellite6_upgrade,
          satellite6_capsule_upgrade, hprod, h1', h2, h3, h3', hos, hcap, hrc, hcu, hv, hf,
          runSteps_all_ok, Bool.not_true, Bool.not_false, Bool.and_false, Bool.false_and,
          Bool.true_and, Bool.and_true, if_false, if_true, ite_false, ite_true, ne_eq,
          not_true_eq_false, not_false_eq_true, reduceCtorEq, reduceIte,
          Option.isSome_none, List.mem_append, List.mem_cons]
        tauto

/-- A fully provisioner-backed hub with an explicit subordinate. -/
def envW10 : Env :=
  { TO_VERSION := some "6.2", FROM_VERSION := some "6.1",
    OS := some "rhel7", RHEV_SATELLITE := some "sat-rhev.example.com",
    CAPSULE_HOSTNAME := some "cap1.example.com" }

/-- C10 witness: with a provisioned hub, the certificate-generation
command of the subordinate workflow runs with a `None` hub host. -/
theorem spec_c10_witness :
    Event.generateCapsuleCerts (some "cap1.example.com") true none ∈
      (product_upgrade "capsule" none none envW10 "7"
        (fun _ => false) (fun _ => false)).1 :=
  (spec_c10_unset_fabric_hosts none none envW10 "7").1 rfl rfl rfl rfl rfl rfl rfl
